import Mathlib

/-!
Verification development for the AFT device-provisioning and fleet
health-check code.

Every definition below is a shallow embedding of a function from the AFT
sources; the doc comments give the file and line ranges. External effects
(process spawning, sleeping, ssh probes, the file system) are modelled by
explicit environment parameters describing what the external world does,
and by event traces recording the side effects the embedded code performs.
-/

namespace AFT

/-! ### EdisonDevice._dfu_call  (src/devices/edisondevice.py, lines 292-328) -/

/-- Behaviour of one DFU attempt, as observed by the loop in `_dfu_call`:
either `_wait_for_device` raises its IOError (line 288), or the spawned
dfu-util process exits with some status before the wall-clock deadline
(so `execution.poll()` returns non-None, line 306), or the deadline passes
with the process still running. -/
inductive DfuAttemptOutcome where
| waitRaises : DfuAttemptOutcome
| exits : Int → DfuAttemptOutcome
| timesOut : DfuAttemptOutcome
deriving DecidableEq

/-- Side effects `_dfu_call` performs on the tool process and the device. -/
inductive DfuEvent where
| killTool : DfuEvent
| reboot : DfuEvent
deriving DecidableEq

/-- Result of `_dfu_call`. `returned` is the normal return (line 311),
carrying the number of attempts used and the exit status `poll()` reported;
`raisedFlashingFailed` is the IOError raised after the loop (line 328);
`raisedWaitIOError` is the IOError propagating out of `_wait_for_device`.
Each result carries the trace of kill/reboot side effects performed. -/
inductive DfuResult where
| returned : Nat → Int → List DfuEvent → DfuResult
| raisedFlashingFailed : List DfuEvent → DfuResult
| raisedWaitIOError : List DfuEvent → DfuResult
deriving DecidableEq

/-- Loop of `_dfu_call` (lines 298-327): while `attempt < attempts`, wait
for the device, spawn dfu-util and poll it until the timeout. If `poll()`
reports any exit status the function closes the log and returns at once;
on a timeout it kills the tool, increments the counter, reboots the device
and retries. The fuel argument is `attempts - attempt`. -/
def dfuCallGo (env : Nat → DfuAttemptOutcome) : Nat → Nat → List DfuEvent → DfuResult
| 0, _, events => DfuResult.raisedFlashingFailed events
| fuel + 1, attempt, events =>
  match env attempt with
  | DfuAttemptOutcome.waitRaises => DfuResult.raisedWaitIOError events
  | DfuAttemptOutcome.exits status => DfuResult.returned (attempt + 1) status events
  | DfuAttemptOutcome.timesOut =>
      dfuCallGo env fuel (attempt + 1) (events ++ [DfuEvent.killTool, DfuEvent.reboot])

/-- EdisonDevice._dfu_call; the default attempt budget in the source is 4. -/
def dfu_call (env : Nat → DfuAttemptOutcome) (attempts : Nat) : DfuResult :=
dfuCallGo env attempts 0 []

/-! ### PCDevice._enter_mode and _wait_for_responsive_ip
    (src/devices/pcdevice.py, lines 143-184) -/

/-- PCDevice._BOOT_TIMEOUT (line 36). -/
def boot_timeout_seconds : Nat := 240

/-- PCDevice._POLLING_INTERVAL (line 37). -/
def polling_interval_seconds : Nat := 10

/-- Loop of `_wait_for_responsive_ip` (lines 178-184): each iteration calls
`get_ip()` once; `polls i` is what the i-th call returns. The function
returns the responsive ip (if any) together with the number of `get_ip`
polls performed. -/
def waitGo (polls : Nat → Option String) : Nat → Nat → Option String × Nat
| 0, idx => (none, idx)
| fuel + 1, idx =>
  match polls idx with
  | none => waitGo polls fuel (idx + 1)
  | some ip => (some ip, idx + 1)

/-- PCDevice._wait_for_responsive_ip: polls `get_ip` up to
`_BOOT_TIMEOUT / _POLLING_INTERVAL` (= 24) times, sleeping
`_POLLING_INTERVAL` seconds between unsuccessful polls. -/
def wait_for_responsive_ip (polls : Nat → Option String) : Option String × Nat :=
waitGo polls (boot_timeout_seconds / polling_interval_seconds) 0

/-- Environment of one `_enter_mode` attempt: what `get_ip` returns on each
poll of that attempt, and whether `_verify_mode` finds the expected mode
text in the `/proc/version` probe of a given ip. -/
structure AttemptSpec where
  polls : Nat → Option String
  verify : String → Bool

/-- Trace of the externally visible actions `_enter_mode` performs:
`_power_cycle` calls, PEM keystroke replays, `_verify_mode` probes. -/
structure EnterTrace where
  powerCycles : Nat
  pemReplays : Nat
  verifyProbes : Nat
deriving DecidableEq

/-- Result of `_enter_mode`: early return on a verified mode, or the
LookupError raised after all attempts fail (line 170). -/
inductive EnterModeResult where
| success : EnterTrace → EnterModeResult
| raisedLookupError : EnterTrace → EnterModeResult
deriving DecidableEq

/-- Truth value of: this attempt obtains a responsive ip and the mode
verification probe on it passes. -/
def attemptSucceeds (a : AttemptSpec) : Bool :=
  match (wait_for_responsive_ip a.polls).1 with
  | some ip => a.verify ip
  | none => false

/-- Loop of `_enter_mode` (lines 151-166): each of (up to) 8 iterations
power-cycles, replays the keystroke sequence, waits for a responsive ip
and, if one was obtained, probes the booted mode; a passing probe returns
immediately. The fuel argument counts the remaining iterations of
`range(attempts)`. -/
def enterModeGo (env : Nat → AttemptSpec) : Nat → Nat → EnterTrace → EnterModeResult
| 0, _, tr => EnterModeResult.raisedLookupError tr
| fuel + 1, k, tr =>
  let a := env k
  let tr1 : EnterTrace := ⟨tr.powerCycles + 1, tr.pemReplays + 1, tr.verifyProbes⟩
  match (wait_for_responsive_ip a.polls).1 with
  | some ip =>
      let tr2 : EnterTrace := ⟨tr1.powerCycles, tr1.pemReplays, tr1.verifyProbes + 1⟩
      if a.verify ip then EnterModeResult.success tr2
      else enterModeGo env fuel (k + 1) tr2
  | none => enterModeGo env fuel (k + 1) tr1

/-- PCDevice._enter_mode with its fixed attempt budget of 8 (line 148). -/
def enter_mode (env : Nat → AttemptSpec) : EnterModeResult :=
enterModeGo env 8 0 ⟨0, 0, 0⟩

/-! Helper lemmas about the `_enter_mode` loop. -/

theorem enterModeGo_succ_of_succeeds (env : Nat → AttemptSpec) (fuel k : Nat)
    (tr : EnterTrace) (h : attemptSucceeds (env k) = true) :
    ∃ tr2, enterModeGo env (fuel + 1) k tr = EnterModeResult.success tr2
      ∧ tr2.powerCycles = tr.powerCycles + 1 ∧ tr2.pemReplays = tr.pemReplays + 1 := by
  unfold attemptSucceeds at h
  cases hw : (wait_for_responsive_ip (env k).polls).1 with
  | none => rw [hw] at h; simp at h
  | some ip =>
    rw [hw] at h
    simp at h
    refine ⟨⟨tr.powerCycles + 1, tr.pemReplays + 1, tr.verifyProbes + 1⟩, ?_, rfl, rfl⟩
    simp [enterModeGo, hw, h]

theorem enterModeGo_succ_of_fails (env : Nat → AttemptSpec) (fuel k : Nat)
    (tr : EnterTrace) (h : attemptSucceeds (env k) = false) :
    ∃ tr2, enterModeGo env (fuel + 1) k tr = enterModeGo env fuel (k + 1) tr2
      ∧ tr2.powerCycles = tr.powerCycles + 1 ∧ tr2.pemReplays = tr.pemReplays + 1 := by
  unfold attemptSucceeds at h
  cases hw : (wait_for_responsive_ip (env k).polls).1 with
  | none =>
    refine ⟨⟨tr.powerCycles + 1, tr.pemReplays + 1, tr.verifyProbes⟩, ?_, rfl, rfl⟩
    simp only [enterModeGo, hw]
  | some ip =>
    rw [hw] at h
    simp at h
    refine ⟨⟨tr.powerCycles + 1, tr.pemReplays + 1, tr.verifyProbes + 1⟩, ?_, rfl, rfl⟩
    simp [enterModeGo, hw, h]

theorem enterModeGo_run_fails (env : Nat → AttemptSpec) :
    ∀ (k fuel base : Nat) (tr : EnterTrace),
    (∀ j, j < k → attemptSucceeds (env (base + j)) = false) → k ≤ fuel →
    ∃ tr2, enterModeGo env fuel base tr = enterModeGo env (fuel - k) (base + k) tr2
      ∧ tr2.powerCycles = tr.powerCycles + k ∧ tr2.pemReplays = tr.pemReplays + k := by
  intro k
  induction k with
  | zero => intro fuel base tr _ _; exact ⟨tr, by simp⟩
  | succ n ih =>
    intro fuel base tr hfail hle
    obtain ⟨fuel0, rfl⟩ : ∃ fuel0, fuel = fuel0 + 1 :=
      ⟨fuel - 1, by omega⟩
    obtain ⟨trA, hA, hAc, hAr⟩ :=
      enterModeGo_succ_of_fails env fuel0 base tr
        (by simpa using hfail 0 (by omega))
    obtain ⟨trB, hB, hBc, hBr⟩ :=
      ih fuel0 (base + 1) trA
        (fun j hj => by
          have := hfail (j + 1) (by omega)
          simpa [Nat.add_assoc, Nat.add_comm 1 j] using this)
        (by omega)
    refine ⟨trB, ?_, by omega, by omega⟩
    rw [hA, hB]
    have h1 : fuel0 + 1 - (n + 1) = fuel0 - n := by omega
    have h2 : base + 1 + n = base + (n + 1) := by omega
    rw [h1, h2]

theorem waitGo_poll_bound (polls : Nat → Option String) :
    ∀ (fuel idx : Nat), (waitGo polls fuel idx).2 ≤ idx + fuel := by
  intro fuel
  induction fuel with
  | zero => intro idx; simp [waitGo]
  | succ n ih =>
    intro idx
    cases hp : polls idx with
    | none =>
      have := ih (idx + 1)
      calc (waitGo polls (n + 1) idx).2 = (waitGo polls n (idx + 1)).2 := by
            simp [waitGo, hp]
        _ ≤ idx + 1 + n := this
        _ ≤ idx + (n + 1) := by omega
    | some ip => simp [waitGo, hp]

/-- C3: mode entry is attempted at most 8 times; an attempt power-cycles
once, replays the keystroke sequence once, polls for a responsive ip
(bounded by 240 s at a 10 s interval, i.e. at most 24 polls) and probes the
booted mode when an ip was obtained. If verification first passes on
attempt k+1 (0-indexed k, k+1 ≤ 8), exactly k+1 power cycles have been
performed and the call returns; if all 8 attempts fail, a LookupError is
raised after exactly 8 power cycles. -/
theorem claim_C3_enter_mode_bounded_retry (env : Nat → AttemptSpec) :
    (∀ k, k < 8 → attemptSucceeds (env k) = true →
       (∀ j, j < k → attemptSucceeds (env j) = false) →
       ∃ tr, enter_mode env = EnterModeResult.success tr
          ∧ tr.powerCycles = k + 1 ∧ tr.pemReplays = k + 1 ∧ tr.verifyProbes ≤ k + 1)
    ∧ ((∀ j, j < 8 → attemptSucceeds (env j) = false) →
       ∃ tr, enter_mode env = EnterModeResult.raisedLookupError tr
          ∧ tr.powerCycles = 8 ∧ tr.pemReplays = 8)
    ∧ (∀ polls, (wait_for_responsive_ip polls).2
          ≤ boot_timeout_seconds / polling_interval_seconds) := by
  refine ⟨?_, ?_, ?_⟩
  · intro k hk hsucc hfail
    obtain ⟨trA, hA, hAc, hAr⟩ :=
      enterModeGo_run_fails env k 8 0 ⟨0, 0, 0⟩ (by simpa using hfail) (by omega)
    have hAc2 : trA.powerCycles = k := by simpa using hAc
    have hAr2 : trA.pemReplays = k := by simpa using hAr
    obtain ⟨fuel0, hfuel⟩ : ∃ fuel0, 8 - k = fuel0 + 1 := ⟨8 - k - 1, by omega⟩
    obtain ⟨trB, hB, hBc, hBr⟩ :=
      enterModeGo_succ_of_succeeds env fuel0 (0 + k) trA (by simpa using hsucc)
    have h8 : enterModeGo env 8 0 ⟨0, 0, 0⟩ = EnterModeResult.success trB := by
      rw [hA, hfuel, hB]
    have hvmain : ∀ fuel k0 (tr0 tr1 : EnterTrace),
        enterModeGo env fuel k0 tr0 = EnterModeResult.success tr1 →
        tr0.verifyProbes ≤ tr0.powerCycles →
        tr1.verifyProbes ≤ tr1.powerCycles := by
      intro fuel
      induction fuel with
      | zero => intro k0 tr0 tr1 h h0; simp [enterModeGo] at h
      | succ n ih =>
        intro k0 tr0 tr1 h h0
        simp only [enterModeGo] at h
        split at h
        · split at h
          · cases h
            simp
            omega
          · exact ih (k0 + 1) _ _ h (by simp; omega)
        · exact ih (k0 + 1) _ _ h (by simp; omega)
    have hv : trB.verifyProbes ≤ trB.powerCycles :=
      hvmain 8 0 ⟨0, 0, 0⟩ trB h8 (by simp)
    refine ⟨trB, h8, by omega, by omega, by omega⟩
  · intro hfail
    obtain ⟨trA, hA, hAc, hAr⟩ :=
      enterModeGo_run_fails env 8 8 0 ⟨0, 0, 0⟩ (by simpa using hfail) (by omega)
    have hAc2 : trA.powerCycles = 8 := by simpa using hAc
    have hAr2 : trA.pemReplays = 8 := by simpa using hAr
    refine ⟨trA, ?_, hAc2, hAr2⟩
    unfold enter_mode
    rw [hA]
    simp [enterModeGo]
  · intro polls
    have := waitGo_poll_bound polls (boot_timeout_seconds / polling_interval_seconds) 0
    simpa [wait_for_responsive_ip] using this

/-- Witness for C3, mirroring the spec scenario: success on attempt 5 of 8
(index 4) yields exactly 5 power cycles and an immediate return. -/
theorem claim_C3_enter_mode_bounded_retry_witness :
    ∃ tr, enter_mode (fun k => if k = 4 then
        ⟨fun _ => some "10.0.0.1", fun _ => true⟩
      else ⟨fun _ => none, fun _ => false⟩) = EnterModeResult.success tr
      ∧ tr.powerCycles = 4 + 1 ∧ tr.pemReplays = 4 + 1 ∧ tr.verifyProbes ≤ 4 + 1 :=
  (claim_C3_enter_mode_bounded_retry (fun k => if k = 4 then
      ⟨fun _ => some "10.0.0.1", fun _ => true⟩
    else ⟨fun _ => none, fun _ => false⟩)).1 4 (by omega)
    (by decide) (by decide)

/-- C1 evaluation: an attempt on which the dfu tool exits unsuccessfully
(exit status 1, within the timeout) ends `_dfu_call` at once with no kill,
no power cycle and no retry, because the loop returns on any non-None
`poll()` status; only timed-out attempts are killed, power-cycled and
retried, and four timeouts raise the fatal IOError after four kill+reboot
pairs. -/
theorem claim_C1_dfu_exit_status_not_retried :
    dfu_call (fun _ => DfuAttemptOutcome.exits 1) 4
      = DfuResult.returned 1 1 []
    ∧ dfu_call (fun _ => DfuAttemptOutcome.timesOut) 4
      = DfuResult.raisedFlashingFailed
          [DfuEvent.killTool, DfuEvent.reboot, DfuEvent.killTool, DfuEvent.reboot,
           DfuEvent.killTool, DfuEvent.reboot, DfuEvent.killTool, DfuEvent.reboot] :=
  ⟨rfl, rfl⟩

/-! ### Serial recorder  (src/tools/serialrecorder.py, lines 55-90)

The recorder loop is modelled over `List Char`. Python string operations
are embedded directly: `rfind` of a newline, the slices
`read_buffer[0:last_newline + 1]` and `read_buffer[last_newline + 1:-1]`,
the `re.sub` of the ANSI escape regex, and `str.replace` of newlines by a
newline plus timestamp bracket. -/

/-- Character class `[0-9,A-Z]` of the ANSI regex (digits, comma,
uppercase letters). -/
def isAnsiClassChar (c : Char) : Bool :=
  (('0' ≤ c && c ≤ '9') || c = ',' || ('A' ≤ c && c ≤ 'Z'))

/-- Decimal digit test for the regex pieces `[0-9]{1,2}` and `[0-9]{3}`. -/
def isAsciiDigit (c : Char) : Bool := '0' ≤ c && c ≤ '9'

/-- Greedy consumption of `[0-9,A-Z]{1,2}`: two class characters when
possible, else one, else the group fails (`none`). -/
def takeAnsiClass12 : List Char → Option (List Char)
| [] => none
| c1 :: rest =>
  if isAnsiClassChar c1 then
    match rest with
    | c2 :: rest2 => if isAnsiClassChar c2 then some rest2 else some rest
    | [] => some rest
  else none

/-- Greedy consumption of the optional group `(;[0-9]{1,2})?`. -/
def takeAnsiSemi12 : List Char → List Char
| ';' :: d1 :: d2 :: rest =>
  if isAsciiDigit d1 then
    (if isAsciiDigit d2 then rest else d2 :: rest)
  else ';' :: d1 :: d2 :: rest
| ';' :: d1 :: rest =>
  if isAsciiDigit d1 then rest else ';' :: d1 :: rest
| l => l

/-- Greedy consumption of the optional group `(;[0-9]{3})?`. -/
def takeAnsiSemi3 : List Char → List Char
| ';' :: d1 :: d2 :: d3 :: rest =>
  if isAsciiDigit d1 && isAsciiDigit d2 && isAsciiDigit d3 then rest
  else ';' :: d1 :: d2 :: d3 :: rest
| l => l

/-- Consumption of the optional final `[m|K]?` (the class is the literal
characters m, | and K). -/
def takeAnsiFinal : List Char → List Char
| c :: rest => if c = 'm' || c = '|' || c = 'K' then rest else c :: rest
| [] => []

/-- Remainder of the input after the greedy match of the regex body
following an already-consumed `ESC [`. Every piece after `ESC [` is
optional, so the Python engine commits to the greedy choice of each piece
in sequence. -/
def ansiAfterBracket (l : List Char) : List Char :=
  match takeAnsiClass12 l with
  | none => takeAnsiFinal l
  | some rest => takeAnsiFinal (takeAnsiSemi3 (takeAnsiSemi12 rest))

/-- Scan of `re.sub(ANSI_REGEX, CHARACTER_EMPTY, s)`: at each position a
match starting with `ESC [` is deleted and scanning resumes after it
(matches are non-overlapping); other characters are kept. The fuel is the
length of the list; each step consumes at least one character. -/
def stripAnsiGo : Nat → List Char → List Char
| 0, _ => []
| _ + 1, [] => []
| fuel + 1, '\x1b' :: '[' :: rest => stripAnsiGo fuel (ansiAfterBracket rest)
| fuel + 1, c :: rest => c :: stripAnsiGo fuel rest

/-- Embedded `re.sub` of the recorder ANSI regex with the empty
replacement (serialrecorder.py lines 76-77 and 86-87). -/
def stripAnsi (l : List Char) : List Char := stripAnsiGo l.length l

/-- Embedded `text_batch.replace CHARACTER_NL with newline-plus-timestamp`
(line 80): every newline is followed by the bracketed capture time. -/
def timestampNewlines (ts : List Char) : List Char → List Char
| [] => []
| '\n' :: rest => '\n' :: '[' :: (ts ++ ']' :: ' ' :: timestampNewlines ts rest)
| c :: rest => c :: timestampNewlines ts rest

/-- Index of the last newline of the buffer (`read_buffer.rfind` at
line 69), `none` for the Python result -1. -/
def rfindNewline (l : List Char) : Option Nat :=
  match l.reverse.findIdx? (fun c => c = '\n') with
  | none => none
  | some i => some (l.length - 1 - i)

/-- One scheduled loop iteration of `record`: what `serial_stream.read`
returns, the value of TERMINATE_FLAG during the iteration, and the capture
timestamp string for this iteration. -/
structure RecIter where
  chunk : List Char
  flag : Bool
  ts : List Char

/-- Loop of `record` (lines 60-90), one schedule entry per iteration.
With no newline in the buffer and the flag unset the iteration only
accumulates. Otherwise `text_batch` is the buffer through the last newline
(empty when there is none), the retained buffer is the Python slice
`read_buffer[last_newline + 1:-1]`, the batch is escape-stripped,
timestamped and appended to the output; when the flag is set, the code
additionally appends `re.sub(..., text_batch)` whenever the retained
buffer is non-empty, then returns. `none` means the schedule ended with
the loop still running. -/
def recordGo : List RecIter → List Char → List Char → Option (List Char)
| [], _, _ => none
| it :: rest, buf0, out =>
  let buf := buf0 ++ it.chunk
  match rfindNewline buf with
  | none =>
    if it.flag then
      let textBatch : List Char := []
      let newBuf := buf.dropLast
      let out2 := out ++ timestampNewlines it.ts (stripAnsi textBatch)
      some (if newBuf.isEmpty then out2 else out2 ++ stripAnsi textBatch)
    else recordGo rest buf out
  | some i =>
    let textBatch := buf.take (i + 1)
    let newBuf := (buf.drop (i + 1)).dropLast
    let out2 := out ++ timestampNewlines it.ts (stripAnsi textBatch)
    if it.flag then
      some (if newBuf.isEmpty then out2 else out2 ++ stripAnsi textBatch)
    else recordGo rest newBuf out2

/-- Entry into the `record` loop with empty buffer and empty output file. -/
def record (sched : List RecIter) : Option (List Char) :=
recordGo sched [] []

/-- C4 evaluation at the failing input: the stream delivers two
newline-terminated lines with embedded ANSI escapes and the partial third
line EFG, then the termination signal arrives with no further data. The
output holds the two escape-free lines (with a timestamp after each
newline), but the partial third line never appears: the retained buffer
loses its last character to the `[last_newline + 1:-1]` slice and the
termination flush re-strips `text_batch` instead of writing the remaining
buffer, so no character of EFG is ever written. -/
theorem claim_C4_recorder_drops_partial_line :
    record
      [⟨("A\x1b[0mB\nC\x1b[1mD\nEFG").toList, false, ("100").toList⟩,
       ⟨[], true, ("101").toList⟩]
      = some (("AB\n[100] CD\n[100] ").toList)
    ∧ ('E' ∈ ("AB\n[100] CD\n[100] ").toList) = False
    ∧ ('F' ∈ ("AB\n[100] CD\n[100] ").toList) = False
    ∧ ('G' ∈ ("AB\n[100] CD\n[100] ").toList) = False := by
  refine ⟨by decide, by decide, by decide, by decide⟩

/-! ### PCDevice.get_ip  (src/devices/pcdevice.py, lines 115-132) and
    EdisonDevice.get_ip  (src/devices/edisondevice.py, lines 77-91, 406-407) -/

/-- Whitespace characters recognised by the Python `str.split()` with no
argument (space, tab, newline, carriage return, vertical tab, form feed). -/
def isPySpace (c : Char) : Bool :=
  c = ' ' || c = '\t' || c = '\n' || c = '\r' || c = '\x0b' || c = '\x0c'

/-- Helper loop for `str.split()`: accumulates the current token in
reverse. -/
def pySplitWsGo : List Char → List Char → List (List Char)
| [], acc => if acc.isEmpty then [] else [acc.reverse]
| c :: rest, acc =>
  if isPySpace c then
    (if acc.isEmpty then pySplitWsGo rest [] else acc.reverse :: pySplitWsGo rest [])
  else pySplitWsGo rest (c :: acc)

/-- Embedded Python `str.split()` (no separator): split on runs of
whitespace, discarding empty tokens. -/
def pySplitWs (l : List Char) : List (List Char) := pySplitWsGo l []

/-- Embedded Python substring test `needle in hay` for strings. -/
def containsSub (hay needle : List Char) : Bool :=
  (List.range (hay.length + 1)).any (fun i => ((hay.drop i).take needle.length) == needle)

/-- Third whitespace token of each filtered lease line
(`line.split()[2]`, line 122); `none` models the IndexError raised when a
line has fewer than three tokens. -/
def leaseIpAddresses (lines : List (List Char)) : Option (List (List Char)) :=
  lines.mapM (fun line => (pySplitWs line).get? 2)

/-- Candidate loop of PCDevice.get_ip (lines 128-132): probe each
candidate with `ssh.test_ssh_connectivity` and return the first reachable
one; the second component is the list of candidates actually probed
during the call. -/
def probeCandidates (reachable : List Char → Bool) : List (List Char) → Option (List Char) × List (List Char)
| [] => (none, [])
| ip :: rest =>
  if reachable ip then (some ip, [ip])
  else
    let r := probeCandidates reachable rest
    (r.1, ip :: r.2)

/-- PCDevice.get_ip: read the leases file, keep the lines containing the
device id as a substring, take token 2 of each as a candidate, and return
the first candidate whose ssh probe succeeds (also cached into `dev_ip`,
which the function itself never reads). The error case is the IndexError
of `line.split()[2]`; the returned pair carries the probe log. -/
def pc_get_ip (devId : List Char) (leases : List (List Char))
    (reachable : List Char → Bool) : Except Unit (Option (List Char) × List (List Char)) :=
  let filtered := leases.filter (fun line => containsSub line devId)
  match leaseIpAddresses filtered with
  | none => Except.error ()
  | some ips => Except.ok (probeCandidates reachable ips)

/-- Helper loop for the Python `str.split(sep)` with a one-character
separator; empty tokens are kept. -/
def pySplitCharGo (sep : Char) : List Char → List Char → List (List Char)
| [], acc => [acc.reverse]
| c :: rest, acc =>
  if c = sep then acc.reverse :: pySplitCharGo sep rest []
  else pySplitCharGo sep rest (c :: acc)

/-- Embedded Python `str.split(sep)` for a one-character separator. -/
def pySplitChar (sep : Char) (l : List Char) : List (List Char) :=
pySplitCharGo sep l []

/-- Digit accumulation loop of the embedded Python `int()`. -/
def pyIntDigitsGo : List Char → Nat → Option Nat
| [], acc => some acc
| c :: rest, acc =>
  if isAsciiDigit c then pyIntDigitsGo rest (acc * 10 + (c.toNat - 48))
  else none

/-- Embedded Python `int()` on a trimmed decimal string: an optional minus
sign and a non-empty run of digits; `none` models the ValueError. -/
def pyInt : List Char → Option Int
| [] => none
| '-' :: rest =>
  if rest.isEmpty then none
  else (pyIntDigitsGo rest 0).map (fun n => -(n : Int))
| l => (pyIntDigitsGo l 0).map (fun n => (n : Int))

/-- Static DUT address computed in EdisonDevice.__init__ (lines 82-88):
the network subnet string is split on dots, the first three parts are kept
as the range and the DUT address is the range plus the fourth part plus 2.
`none` models the IndexError/ValueError on a malformed subnet string. -/
def edisonDutIp (subnet : String) : Option String :=
  let parts := pySplitChar '.' subnet.toList
  match parts.get? 0, parts.get? 1, parts.get? 2, parts.get? 3 with
  | some a, some b, some c, some d =>
    (pyInt d).map (fun n =>
      String.mk (a ++ '.' :: b ++ '.' :: c) ++ "." ++ toString (n + 2))
  | _, _, _, _ => none

/-- EdisonDevice.get_ip (lines 406-407): returns the statically derived
`_dut_ip` unconditionally. The second component is the list of
reachability probes the call performs, which is empty: the function never
consults ssh. -/
def edison_get_ip (dutIp : String) : Option String × List String :=
  (some dutIp, [])

/-- Counterexample to C5 as stated: for the Edison variant, get_ip returns
an address although the call performed no reachability probe at all (empty
probe list), so the returned address was not confirmed reachable during
that call. -/
theorem claim_C5_counterexample :
    edisonDutIp "192.168.2.0" = some "192.168.2.2"
    ∧ edison_get_ip "192.168.2.2" = (some "192.168.2.2", [])
    ∧ (edison_get_ip "192.168.2.2").2 = [] := by
  refine ⟨by decide, rfl, rfl⟩

theorem probeCandidates_sound (reachable : List Char → Bool) :
    ∀ (ips : List (List Char)) (ip : List Char) (log : List (List Char)),
    probeCandidates reachable ips = (some ip, log) →
    reachable ip = true ∧ ip ∈ log := by
  intro ips
  induction ips with
  | nil => intro ip log h; simp [probeCandidates] at h
  | cons c rest ih =>
    intro ip log h
    by_cases hc : reachable c = true
    · simp only [probeCandidates, hc, if_true, Prod.mk.injEq, Option.some.injEq] at h
      obtain ⟨rfl, rfl⟩ := h
      exact ⟨hc, by simp⟩
    · simp only [probeCandidates, hc, if_false] at h
      have h1 : (probeCandidates reachable rest).1 = some ip := congrArg Prod.fst h
      have h2 : c :: (probeCandidates reachable rest).2 = log := congrArg Prod.snd h
      have hrest : probeCandidates reachable rest
          = (some ip, (probeCandidates reachable rest).2) := by
        rw [← h1]
      have hrec := ih ip (probeCandidates reachable rest).2 hrest
      exact ⟨hrec.1, h2 ▸ List.mem_cons_of_mem c hrec.2⟩

/-- C5 amended: the PC variant re-validates — a returned address was
probed reachable during that call (and the cached `dev_ip` is never
consulted: `pc_get_ip` does not take it as an input); the Edison variant
performs no validation and returns the statically derived DUT address with
an empty probe log. -/
theorem claim_C5_get_ip_revalidation (devId : List Char) (leases : List (List Char))
    (reachable : List Char → Bool) (ip : List Char) (log : List (List Char))
    (h : pc_get_ip devId leases reachable = Except.ok (some ip, log)) :
    reachable ip = true ∧ ip ∈ log
    ∧ (∀ dutIp : String, edison_get_ip dutIp = (some dutIp, [])) := by
  simp only [pc_get_ip] at h
  revert h
  cases hip : leaseIpAddresses (leases.filter (fun line => containsSub line devId)) with
  | none => intro h; cases h
  | some ips =>
    intro h
    simp only [Except.ok.injEq] at h
    have := probeCandidates_sound reachable ips ip log h
    exact ⟨this.1, this.2, fun _ => rfl⟩

/-- Witness for the amended C5: with one lease line for the device and its
third token reachable, get_ip returns that token and the probe log records
the in-call probe. -/
theorem claim_C5_get_ip_revalidation_witness :
    (fun s => s == ("host1").toList) ("host1").toList = true
    ∧ ("host1").toList ∈ [("host1").toList]
    ∧ (∀ dutIp : String, edison_get_ip dutIp = (some dutIp, [])) :=
  claim_C5_get_ip_revalidation ("aa:bb").toList
    [("00:11:aa:bb 10.0.0.7 host1 lan").toList]
    (fun s => s == ("host1").toList) ("host1").toList [("host1").toList] rfl

/-! ### PCDevice.get_root_partition_path  (src/devices/pcdevice.py, lines 68-83) -/

/-- Values of the parsed JSON disk-layout object: either a partition
record (a dict with name and uuid fields) or other metadata (a non-dict
value, skipped by the isinstance check). -/
inductive LayoutValue where
| partitionRec : String → String → LayoutValue
| metadata : String → LayoutValue
deriving DecidableEq

/-- Truth value of: some layout value is a partition record named rootfs. -/
def layoutHasRootfs (layout : List LayoutValue) : Bool :=
  layout.any (fun v =>
    match v with
    | LayoutValue.partitionRec n _ => n == "rootfs"
    | LayoutValue.metadata _ => false)

/-- PCDevice.get_root_partition_path: when the disk layout file does not
exist, fall back to the configured root_partition; otherwise take the
first partition record named rootfs via `next(...)` on a generator and
build the by-partuuid path. The error case is the StopIteration the bare
`next` raises when no value matches. -/
def get_root_partition_path (diskLayoutFileIsFile : Bool)
    (diskLayout : List LayoutValue) (rootPartitionCfg : String) : Except Unit String :=
  if !diskLayoutFileIsFile then Except.ok rootPartitionCfg
  else
    let matching := diskLayout.filterMap (fun v =>
      match v with
      | LayoutValue.partitionRec n u => if n == "rootfs" then some u else none
      | LayoutValue.metadata _ => none)
    match matching.head? with
    | some uuid => Except.ok ("/dev/disk/by-partuuid" ++ "/" ++ uuid)
    | none => Except.error ()

theorem rootfs_matching_nil (layout : List LayoutValue)
    (h : layoutHasRootfs layout = false) :
    layout.filterMap (fun v =>
      match v with
      | LayoutValue.partitionRec n u => if n == "rootfs" then some u else none
      | LayoutValue.metadata _ => none) = [] := by
  induction layout with
  | nil => rfl
  | cons v rest ih =>
    simp only [layoutHasRootfs, List.any_cons, Bool.or_eq_false_iff] at h
    cases v with
    | partitionRec n u =>
      have hn : (n == "rootfs") = false := h.1
      simp only [List.filterMap_cons, hn, if_false]
      exact ih (by simpa [layoutHasRootfs] using h.2)
    | metadata s =>
      simp only [List.filterMap_cons]
      exact ih (by simpa [layoutHasRootfs] using h.2)

/-- C10: when the disk layout file exists but holds no partition record
named rootfs, `get_root_partition_path` raises StopIteration (the error
case) instead of returning the configured fallback path; the fallback is
only returned when the layout file is absent. -/
theorem claim_C10_rootfs_lookup_raises (layout : List LayoutValue)
    (cfg : String) (h : layoutHasRootfs layout = false) :
    get_root_partition_path true layout cfg = Except.error ()
    ∧ get_root_partition_path false layout cfg = Except.ok cfg := by
  constructor
  · simp only [get_root_partition_path, Bool.not_true, if_false, rootfs_matching_nil layout h]
    rfl
  · rfl

/-- Witness for C10: a layout with metadata and a partition record named
boot, but no rootfs record. -/
theorem claim_C10_rootfs_lookup_raises_witness :
    get_root_partition_path true
      [LayoutValue.metadata ("gpt"), LayoutValue.partitionRec ("boot") ("uuid-1")]
      ("/dev/sda2") = Except.error ()
    ∧ get_root_partition_path false
      [LayoutValue.metadata ("gpt"), LayoutValue.partitionRec ("boot") ("uuid-1")]
      ("/dev/sda2") = Except.ok ("/dev/sda2") :=
  claim_C10_rootfs_lookup_raises
    [LayoutValue.metadata ("gpt"), LayoutValue.partitionRec ("boot") ("uuid-1")]
    ("/dev/sda2") (by decide)

/-! ### Fleet health-check harness
    (src/tools/device_configuration_checker.py) -/

/-- Embedded `_handle_result` (lines 191-217): fold one device result into
the running aggregate. -/
def handle_result (checkResult : Bool × String) (device : String)
    (successStatus : Bool) (resultString : String) : Bool × String :=
  (successStatus && checkResult.1,
   resultString ++ "\nResults for device " ++ device ++ ":\n" ++ checkResult.2 ++ "\n\n")

/-- Behaviour of one `check(device_args)` call, as the fleet drivers see
it: either it returns a result tuple or it raises (reservation failure,
operator interrupt, and so on). -/
inductive CheckOutcome where
| result : Bool × String → CheckOutcome
| raises : CheckOutcome

/-- Loop of `check_all_serial` (lines 157-163): iterate the configs in
order and fold with `_handle_result`; an exception raised by `check`
propagates out of the loop (the error case), discarding the aggregate. -/
def check_all_serial_go : List (String × CheckOutcome) → Bool → String → Except Unit (Bool × String)
| [], s, r => Except.ok (s, r)
| (_, CheckOutcome.raises) :: _, _, _ => Except.error ()
| (name, CheckOutcome.result cr) :: rest, s, r =>
  check_all_serial_go rest (handle_result cr name s r).1 (handle_result cr name s r).2

/-- Embedded `check_all_serial` with initial aggregate (True, CHAR_EMPTY). -/
def check_all_serial (configs : List (String × CheckOutcome)) : Except Unit (Bool × String) :=
check_all_serial_go configs true ""

/-- Queue contents drained by `check_all_parallel` (lines 124-130): each
worker thread whose `check` call returns puts exactly one (result, name)
pair; a worker whose `check` raises dies without putting anything. -/
def successfulResults (configs : List (String × CheckOutcome)) : List ((Bool × String) × String) :=
  configs.filterMap (fun c =>
    match c.2 with
    | CheckOutcome.result r => some (r, c.1)
    | CheckOutcome.raises => none)

/-- Drain loop of `check_all_parallel` (lines 121-132): fold the queue
items, in whatever arrival order, with `_handle_result` starting from
(True, CHAR_EMPTY). -/
def check_all_parallel (drained : List ((Bool × String) × String)) : Bool × String :=
  drained.foldl (fun acc item => handle_result item.1 item.2 acc.1 acc.2) (true, "")

/-- Report line opening the per-device section `_handle_result` appends. -/
def deviceEntry (device : String) : String := "\nResults for device " ++ device ++ ":\n"

theorem serial_go_ok (rs : List (String × (Bool × String))) :
    ∀ (s : Bool) (r : String), ∃ rep,
      check_all_serial_go (rs.map (fun c => (c.1, CheckOutcome.result c.2))) s r
        = Except.ok (s && rs.all (fun c => c.2.1), rep) := by
  induction rs with
  | nil => intro s r; exact ⟨r, by simp [check_all_serial_go]⟩
  | cons c rest ih =>
    intro s r
    obtain ⟨rep, hrep⟩ := ih (s && c.2.1) ((handle_result c.2 c.1 s r).2)
    refine ⟨rep, ?_⟩
    simp only [List.map_cons, check_all_serial_go]
    have h1 : (handle_result c.2 c.1 s r).1 = (s && c.2.1) := rfl
    rw [h1, hrep]
    simp [Bool.and_assoc]

theorem parallel_foldl_fst (l : List ((Bool × String) × String)) :
    ∀ (b : Bool) (s : String),
    (l.foldl (fun acc item => handle_result item.1 item.2 acc.1 acc.2) (b, s)).1
      = (b && l.all (fun item => item.1.1)) := by
  induction l with
  | nil => intro b s; simp
  | cons it rest ih =>
    intro b s
    simp only [List.foldl_cons, List.all_cons]
    have := ih (handle_result it.1 it.2 b s).1 (handle_result it.1 it.2 b s).2
    rw [this]
    have h1 : (handle_result it.1 it.2 b s).1 = (b && it.1.1) := rfl
    rw [h1, Bool.and_assoc]

theorem perm_all_eq {α : Type} (f : α → Bool) {l1 l2 : List α} (h : l1.Perm l2) :
    l1.all f = l2.all f := by
  induction h with
  | nil => rfl
  | cons x _ ih => simp [List.all_cons, ih]
  | swap x y l =>
    simp only [List.all_cons]
    rw [← Bool.and_assoc, ← Bool.and_assoc, Bool.and_comm (f y) (f x)]
  | trans _ _ ih1 ih2 => exact ih1.trans ih2

theorem successfulResults_map (rs : List (String × (Bool × String))) :
    successfulResults (rs.map (fun c => (c.1, CheckOutcome.result c.2)))
      = rs.map (fun c => (c.2, c.1)) := by
  induction rs with
  | nil => rfl
  | cons c rest ih =>
    simp only [successfulResults, List.map_cons, List.filterMap_cons] at ih ⊢
    rw [ih]

theorem all_map_swap (rs : List (String × (Bool × String))) :
    ((rs.map (fun c => (c.2, c.1))).all fun item => item.1.1) = rs.all (fun c => c.2.1) := by
  induction rs with
  | nil => rfl
  | cons c rest ih => simp only [List.map_cons, List.all_cons, ih]

/-- C2: with every device check returning a result, the serial driver
returns an aggregate whose boolean is the AND of all per-device result
booleans, and the parallel driver returns the same boolean for any arrival
order of the workers' queue items. -/
theorem claim_C2_fleet_aggregate_is_and (rs : List (String × (Bool × String)))
    (drained : List ((Bool × String) × String))
    (hperm : drained.Perm (successfulResults (rs.map (fun c => (c.1, CheckOutcome.result c.2))))) :
    ∃ rep1 rep2,
      check_all_serial (rs.map (fun c => (c.1, CheckOutcome.result c.2)))
        = Except.ok (rs.all (fun c => c.2.1), rep1)
      ∧ check_all_parallel drained = (rs.all (fun c => c.2.1), rep2) := by
  obtain ⟨rep1, h1⟩ := serial_go_ok rs true ""
  refine ⟨rep1, (check_all_parallel drained).2, ?_, ?_⟩
  · simpa [check_all_serial] using h1
  · have hfst : (check_all_parallel drained).1 = rs.all (fun c => c.2.1) := by
      rw [check_all_parallel, parallel_foldl_fst, Bool.true_and,
        perm_all_eq _ hperm, successfulResults_map, all_map_swap]
    have hpair : check_all_parallel drained
        = ((check_all_parallel drained).1, (check_all_parallel drained).2) := rfl
    rw [hpair, hfst]

/-- Witness for C2: two devices, one passing and one failing, with the
parallel queue drained in the reversed order; both drivers aggregate to
the AND, which is false. -/
theorem claim_C2_fleet_aggregate_is_and_witness :
    ∃ rep1 rep2,
      check_all_serial ([(("a" : String), (true, ("ra" : String))), (("b" : String), (false, ("rb" : String)))].map
          (fun c => (c.1, CheckOutcome.result c.2)))
        = Except.ok (false, rep1)
      ∧ check_all_parallel [((false, ("rb" : String)), ("b" : String)), ((true, ("ra" : String)), ("a" : String))]
        = (false, rep2) :=
  claim_C2_fleet_aggregate_is_and
    [(("a" : String), (true, ("ra" : String))), (("b" : String), (false, ("rb" : String)))]
    [((false, ("rb" : String)), ("b" : String)), ((true, ("ra" : String)), ("a" : String))]
    (by decide)

theorem serial_go_acc_grows (rs : List (String × (Bool × String))) :
    ∀ (s : Bool) (r : String) (b : Bool) (rep : String),
    check_all_serial_go (rs.map (fun c => (c.1, CheckOutcome.result c.2))) s r
      = Except.ok (b, rep) → r.data <:+: rep.data := by
  induction rs with
  | nil =>
    intro s r b rep h
    simp only [List.map_nil, check_all_serial_go, Except.ok.injEq, Prod.mk.injEq] at h
    exact h.2 ▸ ⟨[], [], by simp⟩
  | cons c rest ih =>
    intro s r b rep h
    simp only [List.map_cons, check_all_serial_go] at h
    have hpre : r.data <:+: (handle_result c.2 c.1 s r).2.data :=
      ⟨[], ("\nResults for device " ++ c.1 ++ ":\n" ++ c.2.2 ++ "\n\n" : String).data,
        by simp [handle_result, String.data_append]⟩
    exact hpre.trans (ih _ _ _ _ h)

theorem serial_go_entries (rs : List (String × (Bool × String))) :
    ∀ (s : Bool) (r : String) (b : Bool) (rep : String),
    check_all_serial_go (rs.map (fun c => (c.1, CheckOutcome.result c.2))) s r
      = Except.ok (b, rep) →
    ∀ c ∈ rs, (deviceEntry c.1).data <:+: rep.data := by
  induction rs with
  | nil => intro s r b rep _ c hc; simp at hc
  | cons c0 rest ih =>
    intro s r b rep h c hc
    simp only [List.map_cons, check_all_serial_go] at h
    rcases List.mem_cons.mp hc with rfl | hmem
    · have hin : (deviceEntry c.1).data <:+: (handle_result c.2 c.1 s r).2.data :=
        ⟨r.data, (c.2.2 ++ "\n\n" : String).data,
          by simp [handle_result, deviceEntry, String.data_append]⟩
      exact hin.trans (serial_go_acc_grows rest _ _ _ _ h)
    · exact ih _ _ _ _ h c hmem

theorem parallel_acc_grows (l : List ((Bool × String) × String)) :
    ∀ (b : Bool) (s : String),
    s.data <:+: ((l.foldl (fun acc item => handle_result item.1 item.2 acc.1 acc.2) (b, s)).2).data := by
  induction l with
  | nil => intro b s; exact ⟨[], [], by simp⟩
  | cons it rest ih =>
    intro b s
    simp only [List.foldl_cons]
    have hpre : s.data <:+: (handle_result it.1 it.2 b s).2.data :=
      ⟨[], ("\nResults for device " ++ it.2 ++ ":\n" ++ it.1.2 ++ "\n\n" : String).data,
        by simp [handle_result, String.data_append]⟩
    exact hpre.trans (ih (handle_result it.1 it.2 b s).1 (handle_result it.1 it.2 b s).2)

theorem parallel_entries (l : List ((Bool × String) × String)) :
    ∀ (b : Bool) (s : String), ∀ item ∈ l,
    (deviceEntry item.2).data <:+:
      ((l.foldl (fun acc item => handle_result item.1 item.2 acc.1 acc.2) (b, s)).2).data := by
  induction l with
  | nil => intro b s item hc; simp at hc
  | cons it rest ih =>
    intro b s item hc
    simp only [List.foldl_cons]
    rcases List.mem_cons.mp hc with rfl | hmem
    · have hin : (deviceEntry item.2).data <:+: (handle_result item.1 item.2 b s).2.data :=
        ⟨s.data, (item.1.2 ++ "\n\n" : String).data,
          by simp [handle_result, deviceEntry, String.data_append]⟩
      exact hin.trans (parallel_acc_grows rest _ _)
    · exact ih _ _ item hmem

/-- C9 amended: when every device check returns a result, both drivers
produce a report containing the per-device section of every config (for
the parallel driver, in any arrival order). The unqualified claim fails
when a check raises: see the counterexample. -/
theorem claim_C9_fleet_reports_every_device (rs : List (String × (Bool × String)))
    (drained : List ((Bool × String) × String))
    (hperm : drained.Perm (successfulResults (rs.map (fun c => (c.1, CheckOutcome.result c.2))))) :
    (∀ b rep, check_all_serial (rs.map (fun c => (c.1, CheckOutcome.result c.2)))
        = Except.ok (b, rep) → ∀ c ∈ rs, (deviceEntry c.1).data <:+: rep.data)
    ∧ (∀ c ∈ rs, (deviceEntry c.1).data <:+: (check_all_parallel drained).2.data) := by
  constructor
  · intro b rep h c hc
    exact serial_go_entries rs true "" b rep h c hc
  · intro c hc
    have hmem : (c.2, c.1) ∈ drained := by
      rw [hperm.mem_iff, successfulResults_map]
      exact List.mem_map.mpr ⟨c, hc, rfl⟩
    have := parallel_entries drained true "" (c.2, c.1) hmem
    exact this

/-- Witness for the amended C9: in a two-device fleet the parallel report
contains the per-device section of device a even though device b failed
its check. -/
theorem claim_C9_fleet_reports_every_device_witness :
    (deviceEntry ("a")).data <:+:
      (check_all_parallel [((false, ("rb" : String)), ("b" : String)),
        ((true, ("ra" : String)), ("a" : String))]).2.data :=
  (claim_C9_fleet_reports_every_device
    [(("a" : String), (true, ("ra" : String))), (("b" : String), (false, ("rb" : String)))]
    [((false, ("rb" : String)), ("b" : String)), ((true, ("ra" : String)), ("a" : String))]
    (by decide)).2 (("a" : String), (true, ("ra" : String))) (by decide)

/-- Counterexample to C9 as stated: a check that raises halts the serial
scan (the whole call raises, so no aggregate report exists and the second
device gets no entry), and in the parallel scan the raising device puts
nothing on the queue, so a one-device fleet whose check raises drains an
empty queue: aggregate (true, empty report), with no entry for the
attempted device and its failure invisible in the aggregate boolean. -/
theorem claim_C9_counterexample :
    check_all_serial [(("d1" : String), CheckOutcome.raises),
        (("d2" : String), CheckOutcome.result (true, ("Ok" : String)))]
      = Except.error ()
    ∧ successfulResults [(("d1" : String), CheckOutcome.raises)] = []
    ∧ check_all_parallel (successfulResults [(("d1" : String), CheckOutcome.raises)])
      = (true, "") :=
  ⟨rfl, rfl, rfl⟩

/-! ### Per-device health check: probes, image test, cleanup
    (src/tools/device_configuration_checker.py, lines 219-500) -/

/-- Behaviour of one sanity probe call (`device.check_poweron()` and
siblings): it returns, or raises KeyboardInterrupt, AFTNotImplementedError
with a message, or any other exception with a message. -/
inductive ProbeBehavior where
| ok : ProbeBehavior
| keyboardInterrupt : ProbeBehavior
| raisesAFTNotImplemented : String → ProbeBehavior
| raisesOther : String → ProbeBehavior
deriving DecidableEq

/-- Status a single try/except block of `_run_sanity_tests`
(lines 312-343) leaves for its probe: the initial (True, "Ok") on success,
pass-with-note for AFTNotImplementedError, (False, message) for any other
exception, and re-raise (the error case) for KeyboardInterrupt. -/
def probeStatus : ProbeBehavior → Except Unit (Bool × String)
| ProbeBehavior.ok => Except.ok (true, "Ok")
| ProbeBehavior.keyboardInterrupt => Except.error ()
| ProbeBehavior.raisesAFTNotImplemented m => Except.ok (true, m)
| ProbeBehavior.raisesOther m => Except.ok (false, m)

/-- The three try/except blocks of `_run_sanity_tests` in order: poweron,
connection, poweroff. A re-raised KeyboardInterrupt aborts the remaining
blocks. -/
def sanity_probe_statuses (poweron connection poweroff : ProbeBehavior) :
    Except Unit ((Bool × String) × (Bool × String) × (Bool × String)) :=
  match probeStatus poweron with
  | Except.error () => Except.error ()
  | Except.ok p =>
    match probeStatus connection with
    | Except.error () => Except.error ()
    | Except.ok c =>
      match probeStatus poweroff with
      | Except.error () => Except.error ()
      | Except.ok o => Except.ok (p, c, o)

/-- Status a probe is converted to by the except ladder, for non-interrupt
behaviours (the keyboardInterrupt row is never reached under the
no-interrupt hypothesis of the theorem using it). -/
def probeConverted : ProbeBehavior → Bool × String
| ProbeBehavior.ok => (true, "Ok")
| ProbeBehavior.keyboardInterrupt => (true, "Ok")
| ProbeBehavior.raisesAFTNotImplemented m => (true, m)
| ProbeBehavior.raisesOther m => (false, m)

/-- Embedded `_format_sanity_test_result` (lines 352-412): derive the
serial status from the record flag and the log file, build the report with
the wiring-diagnosis notes, and AND the four statuses. -/
def format_sanity_test_result (record0 : Bool) (serialLogExists : Bool)
    (serialLogSize : Nat) (poweron connection poweroff serial0 : Bool × String) :
    Bool × String :=
  let serialStatus :=
    if record0 then
      if !serialLogExists then (false, "No serial log file was generated")
      else if serialLogSize < 5 then (false, "Serial log file seems to be empty")
      else serial0
    else (true, "Skipped - serial recording is off")
  let res1 := "Configuration test result: "
    ++ "\n\tPower on test: " ++ poweron.2
    ++ "\n\tConnection test: " ++ connection.2
    ++ "\n\tPower off test: " ++ poweroff.2
    ++ "\n\tSerial test: " ++ serialStatus.2
  let res2 :=
    if poweron.1 && !poweroff.1 then
      res1 ++ "\n\n\tNote: Power on test succeeding and power off test "
        ++ "failing might indicate that power cutter settings are "
        ++ "incorrect (for example: Two devices may have power cutter "
        ++ "settings inverted)"
    else if connection.1 && !poweroff.1 then
      res1 ++ "\n\n\tNote: Connection test succeeding and power off test "
        ++ "failing might indicate that power cutter settings are "
        ++ "incorrect (for example: Two devices may have power cutter "
        ++ "settings inverted)"
    else res1
  let res3 :=
    if !poweron.1 && poweroff.1 then
      res2 ++ "\n\n\tNote: Power off test status might be invalid as "
        ++ "the device failed the power on test (device may have been"
        ++ " off the whole time)"
    else res2
  (poweron.1 && connection.1 && poweroff.1 && serialStatus.1, res3)

/-- Embedded `_run_sanity_tests` (lines 283-350): run the three wrapped
probes (an interrupt propagates) and format; the serial status passed to
the formatter is the untouched initial (True, "Ok"). -/
def run_sanity_tests (record0 serialLogExists : Bool) (serialLogSize : Nat)
    (poweron connection poweroff : ProbeBehavior) : Except Unit (Bool × String) :=
  match sanity_probe_statuses poweron connection poweroff with
  | Except.error () => Except.error ()
  | Except.ok (p, c, o) =>
    Except.ok (format_sanity_test_result record0 serialLogExists serialLogSize p c o (true, "Ok"))

/-- Lower-casing of `str.lower()` restricted to ASCII letters, which is
all the model strings contain. -/
def pyLowerChar (c : Char) : Char :=
  if 'A' ≤ c ∧ c ≤ 'Z' then Char.ofNat (c.toNat + 32) else c

/-- Embedded `device.model.lower()`. -/
def pyLower (s : String) : String := String.mk (s.data.map pyLowerChar)

/-- Behaviour of the known-good-image worker subprocess (lines 448-487):
either some step of the try block raises (subprocess machinery, empty
queue raising AFTDeviceError, writing or testing errors), or the worker
completes and puts (tester results, result string) on the queue. -/
inductive ImageTestEnv where
| raisesDuring : String → ImageTestEnv
| completes : List Bool → String → ImageTestEnv

/-- Embedded `_run_tests_on_know_good_image` (lines 415-500): the model
flagged for false negatives is skipped up front; otherwise any exception
becomes (False, message) and a completed run reduces the tester results
with logical and (`reduce` with no initial value raises on an empty
sequence, which the except turns into a failure). -/
def run_tests_on_know_good_image (model : String) (env : ImageTestEnv) : Bool × String :=
  if pyLower model == "edison" then
    (true, "Skipped - produces too many false negatives")
  else
    match env with
    | ImageTestEnv.raisesDuring msg => (false, "Image Test result: " ++ msg)
    | ImageTestEnv.completes rs str =>
      match rs with
      | [] => (false, "Image Test result: reduce() of empty sequence with no initial value")
      | r :: rest =>
        let result := rest.foldl (fun x y => x && y) r
        (result,
         if result then "Image test result: Ok"
         else "Image test result:  Failure(s): \n\n" ++ str)

/-- Side effects of `check` after the device is reserved. -/
inductive CheckEvent where
| detachPower : CheckEvent
| releaseDevice : CheckEvent
| blacklistDevice : CheckEvent
deriving DecidableEq

/-- Environment of one `check(args)` call after reservation succeeded. -/
structure CheckEnv where
  record0 : Bool
  serialLogExists : Bool
  serialLogSize : Nat
  poweron : ProbeBehavior
  connection : ProbeBehavior
  poweroff : ProbeBehavior
  nopoweroff : Bool
  model : String
  imageTest : ImageTestEnv

/-- The finally block of `check` (lines 257-264): detach power unless
`--nopoweroff` was given, then release the device. -/
def checkFinally (nopoweroff : Bool) : List CheckEvent :=
  (if nopoweroff then [] else [CheckEvent.detachPower]) ++ [CheckEvent.releaseDevice]

/-- Image-test result inside `check` (lines 252-255): run on the known
good image only when the sanity tests passed, otherwise the Not-run
placeholder. -/
def checkImageResult (sres : Bool × String) (model : String) (env : ImageTestEnv) : Bool × String :=
  if sres.1 then run_tests_on_know_good_image model env
  else (true, "Image Test result: Not run")

/-- Combined results of `check` (lines 266-269). -/
def checkResults (sres : Bool × String) (model : String) (env : ImageTestEnv) : Bool × String :=
  (sres.1 && (checkImageResult sres model env).1,
   sres.2 ++ "\n" ++ (checkImageResult sres model env).2)

/-- Embedded `check` (lines 219-281) after `reserve_specific` succeeded:
the try body runs the sanity tests and possibly the image test, the
finally block always detaches (unless suppressed) and releases, and a
failed overall result blacklists the device; a KeyboardInterrupt from the
probes propagates (the error case) after the finally block ran. -/
def check (env : CheckEnv) : Except Unit (Bool × String) × List CheckEvent :=
  match run_sanity_tests env.record0 env.serialLogExists env.serialLogSize
      env.poweron env.connection env.poweroff with
  | Except.error () => (Except.error (), checkFinally env.nopoweroff)
  | Except.ok sres =>
    (Except.ok (checkResults sres env.model env.imageTest),
     checkFinally env.nopoweroff
       ++ (if (checkResults sres env.model env.imageTest).1 then []
           else [CheckEvent.blacklistDevice]))

/-- C6: the three probes are isolated — `_run_sanity_tests` re-raises
exactly when some probe raises KeyboardInterrupt; with no interrupt, every
probe contributes its converted status independently of the siblings
(AFTNotImplementedError passes with its note, any other exception becomes
a (false, message) without aborting the remaining probes). -/
theorem claim_C6_probe_isolation (poweron connection poweroff : ProbeBehavior) :
    (sanity_probe_statuses poweron connection poweroff = Except.error ()
      ↔ (poweron = ProbeBehavior.keyboardInterrupt
         ∨ connection = ProbeBehavior.keyboardInterrupt
         ∨ poweroff = ProbeBehavior.keyboardInterrupt))
    ∧ (poweron ≠ ProbeBehavior.keyboardInterrupt →
       connection ≠ ProbeBehavior.keyboardInterrupt →
       poweroff ≠ ProbeBehavior.keyboardInterrupt →
       sanity_probe_statuses poweron connection poweroff
         = Except.ok (probeConverted poweron, probeConverted connection, probeConverted poweroff))
    ∧ (∀ m, probeConverted (ProbeBehavior.raisesOther m) = (false, m))
    ∧ (∀ m, probeConverted (ProbeBehavior.raisesAFTNotImplemented m) = (true, m)) := by
  refine ⟨?_, ?_, fun m => rfl, fun m => rfl⟩
  · cases poweron <;> cases connection <;> cases poweroff <;>
      simp [sanity_probe_statuses, probeStatus]
  · intro h1 h2 h3
    cases poweron <;> cases connection <;> cases poweroff <;>
      simp_all [sanity_probe_statuses, probeStatus, probeConverted]

/-- Witness for C6: the power-on probe raises an ordinary exception, the
connection probe raises AFTNotImplementedError, the power-off probe still
runs and passes. -/
theorem claim_C6_probe_isolation_witness :
    sanity_probe_statuses (ProbeBehavior.raisesOther ("boom"))
      (ProbeBehavior.raisesAFTNotImplemented ("not supported")) ProbeBehavior.ok
      = Except.ok ((false, "boom"), (true, "not supported"), (true, "Ok")) :=
  (claim_C6_probe_isolation (ProbeBehavior.raisesOther ("boom"))
      (ProbeBehavior.raisesAFTNotImplemented ("not supported")) ProbeBehavior.ok).2.1
    (by decide) (by decide) (by decide)

/-- C7: whatever the probes and the image test do (succeed, fail or
raise), the event trace of `check` begins with the finally block — power
detach first unless suppressed, then the release — and the only event that
can follow is the blacklist write; in particular the device is always
released, and it is never detached when `--nopoweroff` is given. -/
theorem claim_C7_check_guaranteed_cleanup (env : CheckEnv) :
    CheckEvent.releaseDevice ∈ (check env).2
    ∧ (∃ tail, (check env).2 =
        (if env.nopoweroff then [CheckEvent.releaseDevice]
         else [CheckEvent.detachPower, CheckEvent.releaseDevice]) ++ tail
        ∧ (tail = [] ∨ tail = [CheckEvent.blacklistDevice]))
    ∧ (env.nopoweroff = true → CheckEvent.detachPower ∉ (check env).2) := by
  have hshape : ∃ tail, (check env).2 = checkFinally env.nopoweroff ++ tail
      ∧ (tail = [] ∨ tail = [CheckEvent.blacklistDevice]) := by
    unfold check
    cases run_sanity_tests env.record0 env.serialLogExists env.serialLogSize
        env.poweron env.connection env.poweroff with
    | error e => cases e; exact ⟨[], by simp, Or.inl rfl⟩
    | ok sres =>
      by_cases hr : (checkResults sres env.model env.imageTest).1 = true
      · exact ⟨[], by simp [hr], Or.inl rfl⟩
      · refine ⟨[CheckEvent.blacklistDevice], ?_, Or.inr rfl⟩
        simp only [Bool.not_eq_true] at hr
        simp [hr]
  obtain ⟨tail, htail, hcases⟩ := hshape
  have hfin : checkFinally env.nopoweroff
      = (if env.nopoweroff then [CheckEvent.releaseDevice]
         else [CheckEvent.detachPower, CheckEvent.releaseDevice]) := by
    unfold checkFinally
    by_cases hb : env.nopoweroff = true
    · simp [hb]
    · simp only [Bool.not_eq_true] at hb
      simp [hb]
  refine ⟨?_, ⟨tail, by rw [htail, hfin], hcases⟩, ?_⟩
  · rw [htail, hfin]
    by_cases hb : env.nopoweroff = true
    · simp [hb]
    · simp only [Bool.not_eq_true] at hb
      simp [hb]
  · intro hb
    rw [htail, hfin, hb]
    rcases hcases with rfl | rfl <;> simp

/-- Witness for C7: a run with suppression on and a failing probe — the
device is released, never detached, and the blacklist may follow. -/
theorem claim_C7_check_guaranteed_cleanup_witness :
    CheckEvent.releaseDevice ∈ (check ⟨false, false, 0, ProbeBehavior.raisesOther ("gone"),
        ProbeBehavior.ok, ProbeBehavior.ok, true, "minnowboard", ImageTestEnv.completes [true] ""⟩).2
    ∧ CheckEvent.detachPower ∉ (check ⟨false, false, 0, ProbeBehavior.raisesOther ("gone"),
        ProbeBehavior.ok, ProbeBehavior.ok, true, "minnowboard", ImageTestEnv.completes [true] ""⟩).2 :=
  ⟨(claim_C7_check_guaranteed_cleanup ⟨false, false, 0, ProbeBehavior.raisesOther ("gone"),
      ProbeBehavior.ok, ProbeBehavior.ok, true, "minnowboard", ImageTestEnv.completes [true] ""⟩).1,
   (claim_C7_check_guaranteed_cleanup ⟨false, false, 0, ProbeBehavior.raisesOther ("gone"),
      ProbeBehavior.ok, ProbeBehavior.ok, true, "minnowboard", ImageTestEnv.completes [true] ""⟩).2.2 rfl⟩

/-- C8: whenever the known-good-image test is invoked for a model whose
lower-cased name is edison, its result is the skip tuple, regardless of
everything else in the environment (the function reads nothing besides
the model name before returning). -/
theorem claim_C8_edison_image_test_skipped (model : String) (env : ImageTestEnv)
    (h : pyLower model = "edison") :
    run_tests_on_know_good_image model env
      = (true, "Skipped - produces too many false negatives") := by
  unfold run_tests_on_know_good_image
  rw [h]
  rfl

/-- Witness for C8 at the capitalised model name. -/
theorem claim_C8_edison_image_test_skipped_witness :
    run_tests_on_know_good_image ("Edison") (ImageTestEnv.completes [false] ("failures"))
      = (true, "Skipped - produces too many false negatives") :=
  claim_C8_edison_image_test_skipped ("Edison") (ImageTestEnv.completes [false] ("failures")) rfl

end AFT
